import Mathlib

/-!
Verification of the Digital Library Manager (`src/book.py`).

The program keeps a library as a Python list of JSON-derived dicts in
`st.session_state.library`.  We embed JSON values as the inductive type
`JValue`, dicts as insertion-ordered association lists, and each operation
of the program (`load_library`, `add_book`, `search_books`, the import and
export halves of `file_handling`) as a pure Lean function on those values.
File contents are modelled at the parsed-JSON level: `json.load` of a file
written by `json.dumps` is the identity on `JValue`.

Note that `book.py` defines `file_handling` twice: the first definition
(lines 101-156) validates and repairs imported entries, the second
definition (lines 349-381) assigns the parsed JSON verbatim and, being the
later `def`, shadows the first at runtime.  Both are embedded below
(`file_handling_first_import` and `file_handling_second_import`).
-/

/-- JSON values as produced by Python's `json.load`: null, booleans,
integers, strings, arrays, and objects (insertion-ordered key/value lists,
keys assumed distinct as `json.load` guarantees). -/
inductive JValue where
  | null : JValue
  | bool (b : Bool) : JValue
  | int (n : Int) : JValue
  | str (s : String) : JValue
  | arr (items : List JValue) : JValue
  | obj (fields : List (String × JValue)) : JValue

/-- Python dict lookup `d[k]` / `k in d` on an association list: the value
at the first matching key, if any. -/
def jGet (kvs : List (String × JValue)) (k : String) : Option JValue :=
  match kvs with
  | [] => none
  | (k2, v) :: rest => if k2 = k then some v else jGet rest k

/-- Python dict assignment `d[k] = v`: overwrite the first matching key in
place, or append the new key at the end (Python dicts preserve insertion
order and keep an updated key's position). -/
def jSet (kvs : List (String × JValue)) (k : String) (v : JValue) : List (String × JValue) :=
  match kvs with
  | [] => [(k, v)]
  | (k2, v2) :: rest => if k2 = k then (k, v) :: rest else (k2, v2) :: jSet rest k v

/-- Python's `str.lower()` restricted to ASCII case folding (all the
string constants the program compares against are ASCII), written over
the character list so that it evaluates by kernel reduction. -/
def pyLower (s : String) : String := String.mk (s.data.map Char.toLower)

/-- The five keys `load_library` requires of an entry (book.py line 84). -/
def requiredKeys : List String := ["title", "author", "year", "genre", "read"]

/-- The legacy coercion applied by `load_library` to a string-typed `read`
value: `item['read'].lower() == 'true'` (book.py line 87). -/
def loadReadCoerce (s : String) : Bool := pyLower s == "true"

/-- Per-entry processing of `load_library`'s loop body (book.py lines
84-90): keep the entry iff it is a dict containing all five required keys,
coercing a string-typed `read` to boolean via `loadReadCoerce`; `none`
means the entry is dropped with a warning. -/
def loadFixEntry (item : JValue) : Option JValue :=
  match item with
  | JValue.obj kvs =>
    if requiredKeys.all (fun k => (jGet kvs k).isSome) then
      match jGet kvs "read" with
      | some (JValue.str s) => some (JValue.obj (jSet kvs "read" (JValue.bool (loadReadCoerce s))))
      | _ => some (JValue.obj kvs)
    else none
  | _ => none

/-- The filtering loop of `load_library` (book.py lines 82-90): the list of
surviving (possibly repaired) entries in order, paired with the number of
`Removed invalid entry` warnings issued. -/
def loadEntries : List JValue → List JValue × Nat
  | [] => ([], 0)
  | item :: rest =>
    match loadFixEntry item with
    | some b =>
      let p := loadEntries rest
      (b :: p.1, p.2)
    | none =>
      let p := loadEntries rest
      (p.1, p.2 + 1)

/-- The possible outcomes of reading and parsing `library.json`: the file
is absent (`FileNotFoundError`), its content is not JSON
(`json.JSONDecodeError`), or it parses to a JSON value. -/
inductive LoadInput where
  | fileMissing : LoadInput
  | parseError : LoadInput
  | parsed (j : JValue) : LoadInput

/-- The observable outcome of `load_library`: the resulting
`st.session_state.library`, whether the corrupted-file error (line 98) or
the invalid-format error (line 77) was shown, and how many invalid-entry
warnings (line 90) were issued. -/
structure LoadResult where
  library : List JValue
  corruptWarning : Bool
  formatWarning : Bool
  removedCount : Nat

/-- The function `load_library` (book.py lines 70-99). -/
def load_library : LoadInput → LoadResult
  | LoadInput.fileMissing =>
    { library := [], corruptWarning := false, formatWarning := false, removedCount := 0 }
  | LoadInput.parseError =>
    { library := [], corruptWarning := true, formatWarning := false, removedCount := 0 }
  | LoadInput.parsed (JValue.arr items) =>
    { library := (loadEntries items).1, corruptWarning := false, formatWarning := false,
      removedCount := (loadEntries items).2 }
  | LoadInput.parsed _ =>
    { library := [], corruptWarning := false, formatWarning := true, removedCount := 0 }

/-- The repair coercion of the first `file_handling`'s import path for a
string-typed `read`: `item['read'].lower() in ['true', '1', 'yes']`
(book.py line 144). -/
def repairReadCoerce (s : String) : Bool := ["true", "1", "yes"].contains (pyLower s)

/-- The auto-fix block of the first `file_handling`'s import loop (book.py
lines 140-144): default a missing `read` to `False`, then coerce a
string-typed `read` via `repairReadCoerce`. -/
def fixImportedEntry (kvs : List (String × JValue)) : List (String × JValue) :=
  let kvs1 := if (jGet kvs "read").isSome then kvs else jSet kvs "read" (JValue.bool false)
  match jGet kvs1 "read" with
  | some (JValue.str s) => jSet kvs1 "read" (JValue.bool (repairReadCoerce s))
  | _ => kvs1

/-- The import loop of the first `file_handling` (book.py lines 136-147):
dict entries are repaired and kept in order, every other entry increments
`error_count`. -/
def processImported : List JValue → List JValue × Nat
  | [] => ([], 0)
  | item :: rest =>
    match item with
    | JValue.obj kvs =>
      let p := processImported rest
      (JValue.obj (fixImportedEntry kvs) :: p.1, p.2)
    | _ =>
      let p := processImported rest
      (p.1, p.2 + 1)

/-- The observable outcome of an import: the resulting library, the number
of skipped entries reported, and whether a format error was shown. -/
structure ImportResult where
  library : List JValue
  skipped : Nat
  formatError : Bool

/-- The import path of the FIRST definition of `file_handling` (book.py
lines 128-156): a non-array root raises `ValueError`, caught as a format
error leaving the library unchanged; an array is processed by the repair
loop.  This definition is shadowed at runtime by the second definition. -/
def file_handling_first_import (lib : List JValue) (j : JValue) : ImportResult :=
  match j with
  | JValue.arr items =>
    { library := (processImported items).1, skipped := (processImported items).2,
      formatError := false }
  | _ => { library := lib, skipped := 0, formatError := true }

/-- The import path of the SECOND definition of `file_handling` (book.py
lines 373-378), the one that actually runs: `st.session_state.library`
becomes the parsed JSON value verbatim, with no validation or repair. -/
def file_handling_second_import (j : JValue) : JValue := j

/-- The export path of `file_handling` (book.py lines 357-364), at the
parsed-JSON level: `json.dumps(st.session_state.library)` serialises the
library as a JSON array of its entries. -/
def exportLibrary (lib : List JValue) : JValue := JValue.arr lib

/-- The observable outcome of submitting the add-book form: the resulting
library, whether `save_library` ran, and whether the required-fields error
(book.py line 212) was shown. -/
structure AddResult where
  library : List JValue
  saved : Bool
  validationError : Bool

/-- The submit handler of `add_book` (book.py lines 210-224): an empty
title or author (Python falsy strings) is rejected with an error and no
mutation; otherwise the new book dict is appended and saved.  `year` comes
from a number widget constrained to `[1, current year]`. -/
def add_book (lib : List JValue) (title author : String) (year : Int)
    (genre readStatus : String) : AddResult :=
  if title = "" ∨ author = "" then
    { library := lib, saved := false, validationError := true }
  else
    { library := lib ++ [JValue.obj [("title", JValue.str title), ("author", JValue.str author),
        ("year", JValue.int year), ("genre", JValue.str genre),
        ("read", JValue.bool (readStatus == "Read"))]],
      saved := true, validationError := false }

/-- Python `book[field]` on a modelled entry: a lookup that is `none` when
the entry is not a dict or lacks the key (where Python raises KeyError). -/
def lookupField (book : JValue) (k : String) : Option JValue :=
  match book with
  | JValue.obj kvs => jGet kvs k
  | _ => none

/-- Python `str()` on scalar JSON values.  Container values (lists/dicts)
are left unmodelled (`none`); book fields are scalars in every record the
program itself produces. -/
def pyStrScalar : JValue → Option String
  | JValue.str s => some s
  | JValue.int n => some (toString n)
  | JValue.bool b => some (if b then "True" else "False")
  | JValue.null => some "None"
  | _ => none

/-- Containment of `needle` as a contiguous sublist of `hay`, Python's
`needle in hay` on strings viewed as character lists. -/
def hasSublist (needle hay : List Char) : Bool :=
  (List.range (hay.length + 1)).any (fun i => (hay.drop i).take needle.length == needle)

/-- Python `needle in hay` on strings. -/
def strContains (hay needle : String) : Bool := hasSublist needle.data hay.data

/-- The dict key searched by `search_books` (book.py line 263):
`search_type.lower() if search_type != "Genre" else "genre"`. -/
def searchKey (searchType : String) : String :=
  if searchType == "Genre" then "genre" else pyLower searchType

/-- The search loop of `search_books` (book.py lines 260-265): collect in
order the books whose stringified field value contains the lowered search
term, case-insensitively; `none` models the KeyError / unmodelled paths
(entry without the key, or a container-valued field). -/
def search_books (searchType term : String) : List JValue → Option (List JValue)
  | [] => some []
  | book :: rest =>
    match (lookupField book (searchKey searchType)).bind pyStrScalar with
    | none => none
    | some s =>
      match search_books searchType term rest with
      | none => none
      | some res =>
        some (if strContains (pyLower s) (pyLower term) then book :: res else res)

/-- Spec-side predicate, from the spec's words: an entry is kept by load
iff it is dict-shaped and contains all five required keys. -/
def specIsValidEntry (j : JValue) : Bool :=
  match j with
  | JValue.obj kvs => requiredKeys.all (fun k => (jGet kvs k).isSome)
  | _ => false

/-- Spec-side repair, from the spec's words: coerce a legacy string-typed
`read` value to boolean by case-insensitive comparison with `true`. -/
def specCoerceEntry (j : JValue) : JValue :=
  match j with
  | JValue.obj kvs =>
    match jGet kvs "read" with
    | some (JValue.str s) => JValue.obj (jSet kvs "read" (JValue.bool (pyLower s == "true")))
    | _ => JValue.obj kvs
  | _ => j

/-- Spec-side description of load on an array, from the spec's words: the
ordered surviving entries, each repaired. -/
def loadSpec (items : List JValue) : List JValue :=
  (items.filter specIsValidEntry).map specCoerceEntry

/-- Spec-side Book invariant (spec section 3): dict-shaped with non-empty
string title and author, an integer year within `[1, currentYear]`, a
string genre, and a boolean `read` flag. -/
def specValidBook (currentYear : Int) (j : JValue) : Bool :=
  match j with
  | JValue.obj kvs =>
    (match jGet kvs "title" with | some (JValue.str t) => t != "" | _ => false) &&
    (match jGet kvs "author" with | some (JValue.str a) => a != "" | _ => false) &&
    (match jGet kvs "year" with
      | some (JValue.int y) => decide (1 ≤ y) && decide (y ≤ currentYear)
      | _ => false) &&
    (match jGet kvs "genre" with | some (JValue.str _) => true | _ => false) &&
    (match jGet kvs "read" with | some (JValue.bool _) => true | _ => false)
  | _ => false

/-- Whether an entry's `read` field holds a string value. -/
def readIsString (b : JValue) : Bool :=
  match lookupField b "read" with
  | some (JValue.str _) => true
  | _ => false

/-- Whether a JSON value is an array. -/
def isArrVal : JValue → Bool
  | JValue.arr _ => true
  | _ => false

/-- Spec-side search predicate, from the spec's words: the stringified
field value case-insensitively contains the term as a substring. -/
def fieldText (book : JValue) (k : String) : String :=
  match lookupField book k with
  | some v => (pyStrScalar v).getD ""
  | none => ""

/-- Spec-side search result, from the spec's words: the subset of books
matching the term in the chosen field, in collection order. -/
def searchSpec (searchType term : String) (lib : List JValue) : List JValue :=
  lib.filter (fun b => strContains (pyLower (fieldText b (searchKey searchType))) (pyLower term))

/-- Whether a book can be searched on the given field in our model: it has
the key and the value is a scalar. -/
def searchable (searchType : String) (b : JValue) : Bool :=
  ((lookupField b (searchKey searchType)).bind pyStrScalar).isSome

/-! Helper lemmas shared by the claim theorems. -/

/-- Bridging lemma: the per-entry logic of `load_library` is the spec-side
keep/repair pair. -/
lemma loadFixEntry_eq_spec (j : JValue) :
    loadFixEntry j = if specIsValidEntry j then some (specCoerceEntry j) else none := by
  cases j <;> simp only [loadFixEntry, specIsValidEntry, specCoerceEntry, if_neg Bool.false_ne_true]
  case obj kvs =>
    by_cases h : requiredKeys.all (fun k => (jGet kvs k).isSome) = true
    · rw [if_pos h, if_pos h]
      cases hr : jGet kvs "read" with
      | none => simp [hr]
      | some v => cases v <;> simp [hr, loadReadCoerce]
    · rw [if_neg h, if_neg h]

/-- The load loop computes the spec-side survivors and counts the dropped
entries. -/
lemma loadEntries_eq_spec (items : List JValue) :
    loadEntries items
      = (loadSpec items, (items.filter (fun i => !specIsValidEntry i)).length) := by
  induction items with
  | nil => rfl
  | cons i rest ih =>
    by_cases h : specIsValidEntry i = true
    · simp [loadEntries, loadFixEntry_eq_spec, h, ih, loadSpec]
    · simp only [Bool.not_eq_true] at h
      simp [loadEntries, loadFixEntry_eq_spec, h, ih, loadSpec]

/-- C2: for every loaded JSON array, load keeps exactly the entries that
are dicts containing all five keys, coerces a string-typed `read` value to
boolean by case-insensitive comparison with `true`, drops every other
entry with a per-entry warning, and the resulting collection is the
ordered list of surviving entries. -/
theorem load_library_refines_spec (items : List JValue) :
    (load_library (LoadInput.parsed (JValue.arr items))).library = loadSpec items
    ∧ (load_library (LoadInput.parsed (JValue.arr items))).removedCount
        = (items.filter (fun i => !specIsValidEntry i)).length := by
  constructor <;> simp [load_library, loadEntries_eq_spec]

/-- C3: loading a well-formed array of N valid book records yields a
collection of size exactly N. -/
theorem load_valid_array_size (items : List JValue)
    (h : items.all specIsValidEntry = true) :
    (load_library (LoadInput.parsed (JValue.arr items))).library.length = items.length := by
  simp only [load_library, loadEntries_eq_spec, loadSpec, List.length_map]
  rw [List.filter_length_eq_length.mpr]
  simpa [List.all_eq_true] using h

/-- Witness for C3 at a concrete two-element array of valid records. -/
theorem load_valid_array_size_witness :
    (load_library (LoadInput.parsed (JValue.arr
      [JValue.obj [("title", JValue.str "A"), ("author", JValue.str "B"),
        ("year", JValue.int 1999), ("genre", JValue.str "Fiction"), ("read", JValue.bool true)],
       JValue.obj [("title", JValue.str "C"), ("author", JValue.str "D"),
        ("year", JValue.int 2001), ("genre", JValue.str "Other"),
        ("read", JValue.str "TRUE")]]))).library.length = 2 :=
  load_valid_array_size _ (by rfl)

/-- C4: load is non-fatal on every failure: a missing file yields the
empty collection; unparsable content resets to empty with a corruption
warning; a parsed non-array root resets to empty with a format warning. -/
theorem load_library_failure_handling (j : JValue) (h : isArrVal j = false) :
    load_library LoadInput.fileMissing
      = { library := [], corruptWarning := false, formatWarning := false, removedCount := 0 }
    ∧ load_library LoadInput.parseError
      = { library := [], corruptWarning := true, formatWarning := false, removedCount := 0 }
    ∧ load_library (LoadInput.parsed j)
      = { library := [], corruptWarning := false, formatWarning := true, removedCount := 0 } := by
  refine ⟨rfl, rfl, ?_⟩
  cases j <;> first | rfl | simp [isArrVal] at h

/-- Witness for C4 at the non-array root `{"a": 1}`. -/
theorem load_library_failure_handling_witness :
    load_library (LoadInput.parsed (JValue.obj [("a", JValue.int 1)]))
      = { library := [], corruptWarning := false, formatWarning := true, removedCount := 0 } :=
  (load_library_failure_handling (JValue.obj [("a", JValue.int 1)]) rfl).2.2

/-- C5: submitting the add-book form with an empty title or empty author
is rejected with a validation error, the collection is unchanged, and no
save is performed. -/
theorem add_book_rejects_empty_fields (lib : List JValue) (title author : String)
    (year : Int) (genre readStatus : String) (h : title = "" ∨ author = "") :
    (add_book lib title author year genre readStatus).library = lib
    ∧ (add_book lib title author year genre readStatus).saved = false
    ∧ (add_book lib title author year genre readStatus).validationError = true := by
  rcases h with h | h <;> simp [add_book, h]

/-- Witness for C5: adding a book with an empty title to a one-book
library changes nothing. -/
theorem add_book_rejects_empty_fields_witness :
    (add_book [JValue.null] "" "Author" 2000 "Fiction" "Read").library = [JValue.null]
    ∧ (add_book [JValue.null] "" "Author" 2000 "Fiction" "Read").saved = false
    ∧ (add_book [JValue.null] "" "Author" 2000 "Fiction" "Read").validationError = true :=
  add_book_rejects_empty_fields [JValue.null] "" "Author" 2000 "Fiction" "Read" (Or.inl rfl)

/-- C6: for every collection of searchable books and every non-empty
search term, searching by a chosen field (Title, Author, or Genre)
returns exactly the subset of books whose value in that field
case-insensitively contains the term as a substring, in collection
order. -/
theorem search_books_matches_spec (searchType term : String) (lib : List JValue)
    (hterm : term ≠ "")
    (hty : searchType = "Title" ∨ searchType = "Author" ∨ searchType = "Genre")
    (h : lib.all (searchable searchType) = true) :
    search_books searchType term lib = some (searchSpec searchType term lib) := by
  induction lib with
  | nil => simp [search_books, searchSpec]
  | cons b rest ih =>
    simp only [List.all_cons, Bool.and_eq_true] at h
    obtain ⟨hb, hrest⟩ := h
    cases hl : lookupField b (searchKey searchType) with
    | none => simp [searchable, hl] at hb
    | some v =>
      cases hp : pyStrScalar v with
      | none => simp [searchable, hl, hp] at hb
      | some s =>
        simp [search_books, hl, hp, ih hrest, searchSpec, List.filter_cons, fieldText]

/-- Witness for C6: searching "fiction" by Genre over two books returns
exactly the book whose genre contains "Fiction". -/
theorem search_books_matches_spec_witness :
    search_books "Genre" "fiction"
      [JValue.obj [("title", JValue.str "Dune"), ("author", JValue.str "Herbert"),
        ("year", JValue.int 1965), ("genre", JValue.str "Science Fiction"),
        ("read", JValue.bool true)],
       JValue.obj [("title", JValue.str "SPQR"), ("author", JValue.str "Beard"),
        ("year", JValue.int 2015), ("genre", JValue.str "History"),
        ("read", JValue.bool false)]]
      = some [JValue.obj [("title", JValue.str "Dune"), ("author", JValue.str "Herbert"),
          ("year", JValue.int 1965), ("genre", JValue.str "Science Fiction"),
          ("read", JValue.bool true)]] :=
  (search_books_matches_spec "Genre" "fiction" _
    (by decide) (Or.inr (Or.inr rfl)) (by rfl)).trans (by rfl)

/-- C1: the import operation that actually runs is the SECOND definition
of `file_handling`, which shadows the first: it stores the parsed JSON
verbatim, so a dict entry lacking `read` is kept without the field being
defaulted and a non-dict entry is kept rather than dropped; the shadowed
FIRST definition is the one that performs exactly the claimed repair
(defaulting `read` to false and skipping the non-dict with a count). -/
theorem import_shadowing_divergence :
    file_handling_second_import (JValue.arr
      [JValue.obj [("title", JValue.str "Dune"), ("author", JValue.str "Herbert"),
        ("year", JValue.int 1965), ("genre", JValue.str "Fiction")],
       JValue.str "junk"])
      = JValue.arr
        [JValue.obj [("title", JValue.str "Dune"), ("author", JValue.str "Herbert"),
          ("year", JValue.int 1965), ("genre", JValue.str "Fiction")],
         JValue.str "junk"]
    ∧ lookupField (JValue.obj [("title", JValue.str "Dune"), ("author", JValue.str "Herbert"),
        ("year", JValue.int 1965), ("genre", JValue.str "Fiction")]) "read" = none
    ∧ file_handling_first_import [] (JValue.arr
        [JValue.obj [("title", JValue.str "Dune"), ("author", JValue.str "Herbert"),
          ("year", JValue.int 1965), ("genre", JValue.str "Fiction")],
         JValue.str "junk"])
      = { library := [JValue.obj [("title", JValue.str "Dune"), ("author", JValue.str "Herbert"),
            ("year", JValue.int 1965), ("genre", JValue.str "Fiction"),
            ("read", JValue.bool false)]],
          skipped := 1, formatError := false } :=
  ⟨rfl, rfl, rfl⟩

/-- A value satisfying the Book invariant is dict-shaped. -/
lemma specValidBook_shape (c : Int) (j : JValue) (h : specValidBook c j = true) :
    ∃ kvs, j = JValue.obj kvs := by
  cases j with
  | obj kvs => exact ⟨kvs, rfl⟩
  | null => simp [specValidBook] at h
  | bool b => simp [specValidBook] at h
  | int n => simp [specValidBook] at h
  | str s => simp [specValidBook] at h
  | arr items => simp [specValidBook] at h

/-- On a dict satisfying the Book invariant, both per-entry repairs are the
identity, the entry passes the load filter, and the load coercion leaves it
unchanged. -/
lemma specValidBook_fix (c : Int) (kvs : List (String × JValue))
    (h : specValidBook c (JValue.obj kvs) = true) :
    loadFixEntry (JValue.obj kvs) = some (JValue.obj kvs)
    ∧ fixImportedEntry kvs = kvs
    ∧ specIsValidEntry (JValue.obj kvs) = true
    ∧ specCoerceEntry (JValue.obj kvs) = JValue.obj kvs := by
  simp only [specValidBook, Bool.and_eq_true] at h
  obtain ⟨⟨⟨⟨ht, ha⟩, hy⟩, hg⟩, hr⟩ := h
  have hT : (jGet kvs "title").isSome = true := by
    cases hx : jGet kvs "title" <;> rw [hx] at ht
    · simp at ht
    · rfl
  have hA : (jGet kvs "author").isSome = true := by
    cases hx : jGet kvs "author" <;> rw [hx] at ha
    · simp at ha
    · rfl
  have hY : (jGet kvs "year").isSome = true := by
    cases hx : jGet kvs "year" <;> rw [hx] at hy
    · simp at hy
    · rfl
  have hG : (jGet kvs "genre").isSome = true := by
    cases hx : jGet kvs "genre" <;> rw [hx] at hg
    · simp at hg
    · rfl
  obtain ⟨b, hR⟩ : ∃ b, jGet kvs "read" = some (JValue.bool b) := by
    cases hx : jGet kvs "read" with
    | none => rw [hx] at hr; simp at hr
    | some v =>
      cases v <;> rw [hx] at hr <;> first
        | exact ⟨_, rfl⟩
        | simp at hr
  have hall : requiredKeys.all (fun k => (jGet kvs k).isSome) = true := by
    simp [requiredKeys, hT, hA, hY, hG, hR]
  refine ⟨?_, ?_, ?_, ?_⟩
  · simp [loadFixEntry, hall, hR]
  · simp [fixImportedEntry, hR]
  · simp [specIsValidEntry, hall]
  · simp [specCoerceEntry, hR]

/-- The shadowed repair loop is the identity (with no skips) on a list of
valid books. -/
lemma processImported_valid (c : Int) (lib : List JValue)
    (h : lib.all (specValidBook c) = true) : processImported lib = (lib, 0) := by
  induction lib with
  | nil => rfl
  | cons b rest ih =>
    simp only [List.all_cons, Bool.and_eq_true] at h
    obtain ⟨hb, hrest⟩ := h
    obtain ⟨kvs, rfl⟩ := specValidBook_shape c b hb
    obtain ⟨-, hfix, -, -⟩ := specValidBook_fix c kvs hb
    simp [processImported, hfix, ih hrest]

/-- The load pipeline is the identity on a list of valid books. -/
lemma loadSpec_valid_id (c : Int) (lib : List JValue)
    (h : lib.all (specValidBook c) = true) : loadSpec lib = lib := by
  induction lib with
  | nil => rfl
  | cons b rest ih =>
    simp only [List.all_cons, Bool.and_eq_true] at h
    obtain ⟨hb, hrest⟩ := h
    obtain ⟨kvs, rfl⟩ := specValidBook_shape c b hb
    obtain ⟨-, -, hvalid, hcoerce⟩ := specValidBook_fix c kvs hb
    simp [loadSpec, List.filter_cons, hvalid, hcoerce]
    simpa [loadSpec] using ih hrest

/-- C7: exporting a collection of valid books and re-importing the
exported file yields an identical collection: the running (second)
`file_handling` stores the exported array verbatim, the shadowed (first)
`file_handling` repairs nothing and skips nothing on it, and reloading the
saved file also returns the same collection. -/
theorem export_import_roundtrip (c : Int) (lib : List JValue)
    (h : lib.all (specValidBook c) = true) :
    file_handling_second_import (exportLibrary lib) = exportLibrary lib
    ∧ (file_handling_first_import [] (exportLibrary lib)).library = lib
    ∧ (file_handling_first_import [] (exportLibrary lib)).skipped = 0
    ∧ (load_library (LoadInput.parsed (exportLibrary lib))).library = lib := by
  refine ⟨rfl, ?_, ?_, ?_⟩
  · simp [file_handling_first_import, exportLibrary, processImported_valid c lib h]
  · simp [file_handling_first_import, exportLibrary, processImported_valid c lib h]
  · simp [load_library, exportLibrary, loadEntries_eq_spec, loadSpec_valid_id c lib h]

/-- Witness for C7 on a concrete two-book collection. -/
theorem export_import_roundtrip_witness :
    file_handling_second_import (exportLibrary
      [JValue.obj [("title", JValue.str "Dune"), ("author", JValue.str "Herbert"),
        ("year", JValue.int 1965), ("genre", JValue.str "Science"), ("read", JValue.bool true)],
       JValue.obj [("title", JValue.str "SPQR"), ("author", JValue.str "Beard"),
        ("year", JValue.int 2015), ("genre", JValue.str "History"), ("read", JValue.bool false)]])
      = exportLibrary
        [JValue.obj [("title", JValue.str "Dune"), ("author", JValue.str "Herbert"),
          ("year", JValue.int 1965), ("genre", JValue.str "Science"), ("read", JValue.bool true)],
         JValue.obj [("title", JValue.str "SPQR"), ("author", JValue.str "Beard"),
          ("year", JValue.int 2015), ("genre", JValue.str "History"), ("read", JValue.bool false)]]
    ∧ (file_handling_first_import [] (exportLibrary
        [JValue.obj [("title", JValue.str "Dune"), ("author", JValue.str "Herbert"),
          ("year", JValue.int 1965), ("genre", JValue.str "Science"), ("read", JValue.bool true)],
         JValue.obj [("title", JValue.str "SPQR"), ("author", JValue.str "Beard"),
          ("year", JValue.int 2015), ("genre", JValue.str "History"),
          ("read", JValue.bool false)]])).library
      = [JValue.obj [("title", JValue.str "Dune"), ("author", JValue.str "Herbert"),
          ("year", JValue.int 1965), ("genre", JValue.str "Science"), ("read", JValue.bool true)],
         JValue.obj [("title", JValue.str "SPQR"), ("author", JValue.str "Beard"),
          ("year", JValue.int 2015), ("genre", JValue.str "History"), ("read", JValue.bool false)]] :=
  ⟨(export_import_roundtrip 2026 _ (by rfl)).1,
   (export_import_roundtrip 2026 _ (by rfl)).2.1⟩

/-- Counterexample for C8: load keeps an entry whose title is the empty
string (it only checks key presence), so the collection can contain a book
violating the invariant; the claim that load preserves the invariant is
false. -/
theorem load_admits_invariant_violation :
    (load_library (LoadInput.parsed (JValue.arr
      [JValue.obj [("title", JValue.str ""), ("author", JValue.str "Anon"),
        ("year", JValue.int 1990), ("genre", JValue.str "Fiction"),
        ("read", JValue.bool false)]]))).library
      = [JValue.obj [("title", JValue.str ""), ("author", JValue.str "Anon"),
          ("year", JValue.int 1990), ("genre", JValue.str "Fiction"),
          ("read", JValue.bool false)]]
    ∧ specValidBook 2026 (JValue.obj [("title", JValue.str ""), ("author", JValue.str "Anon"),
        ("year", JValue.int 1990), ("genre", JValue.str "Fiction"),
        ("read", JValue.bool false)]) = false :=
  ⟨rfl, rfl⟩

/-- C8 (amended): the add-book form preserves the Book invariant — given
the form widget's year bounds, a successful submission appends only a book
with non-empty title and author and an in-range year — but load and import
do not validate field contents and can admit invariant-violating books. -/
theorem add_book_preserves_invariant (currentYear year : Int)
    (title author genre readStatus : String) (lib : List JValue)
    (hy1 : 1 ≤ year) (hy2 : year ≤ currentYear)
    (hlib : lib.all (specValidBook currentYear) = true) :
    ((add_book lib title author year genre readStatus).library).all
      (specValidBook currentYear) = true := by
  unfold add_book
  split
  · simpa using hlib
  · rename_i h
    push_neg at h
    obtain ⟨ht, ha⟩ := h
    simp only [List.all_append, hlib, Bool.true_and, List.all_cons, List.all_nil, Bool.and_true]
    show ((title != "") && (author != "")
        && (decide (1 ≤ year) && decide (year ≤ currentYear)) && true && true) = true
    simp [ht, ha, hy1, hy2]

/-- Witness for the amended C8 at a concrete submission. -/
theorem add_book_preserves_invariant_witness :
    ((add_book [] "Dune" "Herbert" 1965 "Fiction" "Read").library).all
      (specValidBook 2026) = true :=
  add_book_preserves_invariant 2026 1965 "Dune" "Herbert" "Fiction" "Read" []
    (by decide) (by decide) rfl

/-- Updating a key makes it present with the assigned value. -/
lemma jGet_jSet_self (kvs : List (String × JValue)) (k : String) (v : JValue) :
    jGet (jSet kvs k v) k = some v := by
  induction kvs with
  | nil => simp [jSet, jGet]
  | cons p rest ih =>
    obtain ⟨k2, v2⟩ := p
    by_cases h : k2 = k
    · simp [jSet, jGet, h]
    · simp [jSet, jGet, h, ih]

/-- Updating one key leaves lookups of other keys unchanged. -/
lemma jGet_jSet_ne (kvs : List (String × JValue)) (k k2 : String) (v : JValue)
    (h : k2 ≠ k) : jGet (jSet kvs k v) k2 = jGet kvs k2 := by
  induction kvs with
  | nil => simp [jSet, jGet, Ne.symm h]
  | cons p rest ih =>
    obtain ⟨ka, va⟩ := p
    by_cases hk : ka = k
    · subst hk
      simp [jSet, jGet, Ne.symm h]
    · simp only [jSet, if_neg hk]
      by_cases hk2 : ka = k2
      · simp [jGet, hk2]
      · simp [jGet, hk2, ih]

/-- The load repair of an entry preserves validity and leaves its `read`
field non-string. -/
lemma specCoerceEntry_wellformed (i : JValue) (h : specIsValidEntry i = true) :
    specIsValidEntry (specCoerceEntry i) = true
    ∧ readIsString (specCoerceEntry i) = false := by
  obtain ⟨kvs, rfl⟩ : ∃ kvs, i = JValue.obj kvs := by
    cases i <;> first | exact ⟨_, rfl⟩ | simp [specIsValidEntry] at h
  simp only [specIsValidEntry] at h
  cases hr : jGet kvs "read" with
  | none =>
    simp [requiredKeys, hr] at h
  | some v =>
    cases v with
    | str s =>
      constructor
      · simp only [specCoerceEntry, hr, specIsValidEntry, List.all_eq_true]
        intro k hk
        by_cases hkr : k = "read"
        · subst hkr
          simp [jGet_jSet_self]
        · rw [jGet_jSet_ne kvs "read" k _ hkr]
          simp only [List.all_eq_true] at h
          exact h k hk
      · simp [specCoerceEntry, hr, readIsString, lookupField, jGet_jSet_self]
    | null => simp [specCoerceEntry, hr, readIsString, lookupField, specIsValidEntry, h]
    | bool b => simp [specCoerceEntry, hr, readIsString, lookupField, specIsValidEntry, h]
    | int n => simp [specCoerceEntry, hr, readIsString, lookupField, specIsValidEntry, h]
    | arr items => simp [specCoerceEntry, hr, readIsString, lookupField, specIsValidEntry, h]
    | obj fields => simp [specCoerceEntry, hr, readIsString, lookupField, specIsValidEntry, h]

/-- C9: after a successful load of an array, every entry of the resulting
collection is a dict containing all five required keys, and no entry's
`read` field is a string. -/
theorem load_result_entries_wellformed (items : List JValue) (b : JValue)
    (hb : b ∈ (load_library (LoadInput.parsed (JValue.arr items))).library) :
    specIsValidEntry b = true ∧ readIsString b = false := by
  simp only [load_library, loadEntries_eq_spec, loadSpec, List.mem_map, List.mem_filter] at hb
  obtain ⟨i, ⟨-, hvalid⟩, rfl⟩ := hb
  exact specCoerceEntry_wellformed i hvalid

/-- Witness for C9: the surviving entry of a load whose legacy `read`
string got coerced is well-formed. -/
theorem load_result_entries_wellformed_witness :
    specIsValidEntry (JValue.obj [("title", JValue.str "Dune"), ("author", JValue.str "Herbert"),
      ("year", JValue.int 1965), ("genre", JValue.str "Fiction"),
      ("read", JValue.bool false)]) = true
    ∧ readIsString (JValue.obj [("title", JValue.str "Dune"), ("author", JValue.str "Herbert"),
        ("year", JValue.int 1965), ("genre", JValue.str "Fiction"),
        ("read", JValue.bool false)]) = false :=
  load_result_entries_wellformed
    [JValue.obj [("title", JValue.str "Dune"), ("author", JValue.str "Herbert"),
      ("year", JValue.int 1965), ("genre", JValue.str "Fiction"),
      ("read", JValue.str "yes")],
     JValue.str "junk"] _
    (List.mem_cons_self _ _)

/-- C10: on load, a string-typed `read` whose lowercase form is not
exactly `true` is coerced to boolean false — the entry survives with
`read` set to `False` — even though the import path's repair coercion
(from the shadowed first `file_handling`) treats `1` and `yes` as
truthy. -/
theorem load_read_coercion_vs_import (s : String) (hs : pyLower s ≠ "true") :
    loadReadCoerce s = false
    ∧ (∀ kvs, jGet kvs "read" = some (JValue.str s) →
        requiredKeys.all (fun k => (jGet kvs k).isSome) = true →
        loadFixEntry (JValue.obj kvs)
          = some (JValue.obj (jSet kvs "read" (JValue.bool false))))
    ∧ repairReadCoerce "1" = true ∧ repairReadCoerce "yes" = true
    ∧ repairReadCoerce "false" = false ∧ repairReadCoerce "" = false := by
  have h1 : loadReadCoerce s = false := by
    simp only [loadReadCoerce, beq_eq_false_iff_ne, ne_eq]
    exact hs
  refine ⟨h1, ?_, rfl, rfl, rfl, rfl⟩
  intro kvs hread hkeys
  simp [loadFixEntry, hkeys, hread, h1]

/-- Witness for C10 at the string `1`: load coerces it to false while the
shadowed import repair would treat it as truthy. -/
theorem load_read_coercion_vs_import_witness :
    loadReadCoerce "1" = false
    ∧ loadFixEntry (JValue.obj [("title", JValue.str "Dune"),
        ("author", JValue.str "Herbert"), ("year", JValue.int 1965),
        ("genre", JValue.str "Fiction"), ("read", JValue.str "1")])
      = some (JValue.obj (jSet [("title", JValue.str "Dune"),
          ("author", JValue.str "Herbert"), ("year", JValue.int 1965),
          ("genre", JValue.str "Fiction"), ("read", JValue.str "1")]
          "read" (JValue.bool false)))
    ∧ repairReadCoerce "1" = true ∧ repairReadCoerce "yes" = true := by
  obtain ⟨h1, h2, h3, h4, -, -⟩ := load_read_coercion_vs_import "1" (by decide)
  exact ⟨h1, h2 _ rfl rfl, h3, h4⟩

/-- Witness for C2 at a concrete array mixing a valid entry, a legacy
string entry, and an invalid entry. -/
theorem load_library_refines_spec_witness :
    (load_library (LoadInput.parsed (JValue.arr
      [JValue.obj [("title", JValue.str "Dune"), ("author", JValue.str "Herbert"),
        ("year", JValue.int 1965), ("genre", JValue.str "Fiction"),
        ("read", JValue.str "True")],
       JValue.int 3]))).library
      = loadSpec
        [JValue.obj [("title", JValue.str "Dune"), ("author", JValue.str "Herbert"),
          ("year", JValue.int 1965), ("genre", JValue.str "Fiction"),
          ("read", JValue.str "True")],
         JValue.int 3]
    ∧ (load_library (LoadInput.parsed (JValue.arr
        [JValue.obj [("title", JValue.str "Dune"), ("author", JValue.str "Herbert"),
          ("year", JValue.int 1965), ("genre", JValue.str "Fiction"),
          ("read", JValue.str "True")],
         JValue.int 3]))).removedCount
      = ([JValue.obj [("title", JValue.str "Dune"), ("author", JValue.str "Herbert"),
            ("year", JValue.int 1965), ("genre", JValue.str "Fiction"),
            ("read", JValue.str "True")],
          JValue.int 3].filter (fun i => !specIsValidEntry i)).length :=
  load_library_refines_spec _
